import Mathlib

/-!
Shallow embedding of the PAYE tax calculator core
(`src/utils.ts`, `src/constants.ts`, `src/types.ts`).

Numbers: the JavaScript source computes with IEEE doubles; this embedding
idealises them as exact rationals (`ℚ`), the standard real-number reading of
the arithmetic.  Decimal literals such as `0.01` denote the exact rationals.
`Math.round` in JavaScript maps `x` to `⌊x + 1/2⌋` (half-up, ties toward
`+∞`); that is embedded exactly.

Strings: `parseFloat` is embedded by `parseFloat` below, following the
ECMAScript `parseFloat` algorithm (trim leading whitespace, longest prefix
matching an optionally signed decimal literal or `Infinity`; no match gives
`NaN`).  The result lives in `JSNum`, which distinguishes `NaN`, signed
infinities and finite values, so that `parseFloat(x) || 0` can be embedded
faithfully.  A deduction string normalising to an infinite value has no
counterpart in the `ℚ` engine; the string-level entry points therefore
return `Option` values that are `none` exactly in that (garbage-input) case.
-/

/-- JavaScript number as produced by `parseFloat`: `NaN`, a signed infinity,
or a finite value idealised as a rational. -/
inductive JSNum where
  | nan : JSNum
  | inf : Bool → JSNum
  | fin : ℚ → JSNum
deriving DecidableEq

/-- Truth-value coercion of a `JSNum` in JavaScript: `NaN` and `±0` are
falsy, every other number is truthy. -/
def JSNum.falsy : JSNum → Bool
  | .nan => true
  | .inf _ => false
  | .fin q => decide (q = 0)

/-- The JavaScript expression `j || 0`: the left operand unless it is falsy. -/
def jsOr0 (j : JSNum) : JSNum :=
  if j.falsy then JSNum.fin 0 else j

/-- Leading-whitespace trimming performed by `parseFloat`. -/
def dropLeadingWs : List Char → List Char
  | [] => []
  | c :: rest => if c.isWhitespace then dropLeadingWs rest else c :: rest

/-- Longest prefix of decimal digits, together with the rest of the input. -/
def takeDigits : List Char → List Char × List Char
  | [] => ([], [])
  | c :: rest =>
      if c.isDigit then
        let r := takeDigits rest
        (c :: r.1, r.2)
      else ([], c :: rest)

/-- Numeric value of a digit string (most significant first). -/
def digitsVal (ds : List Char) : ℕ :=
  ds.foldl (fun a c => 10 * a + (c.toNat - Char.toNat '0')) 0

/-- Does the input start with the literal `Infinity`? -/
def startsWithInfinity : List Char → Bool
  | 'I' :: 'n' :: 'f' :: 'i' :: 'n' :: 'i' :: 't' :: 'y' :: _ => true
  | _ => false

/-- Exponent part of a decimal literal (`e`/`E`, optional sign, digits);
an ill-formed exponent contributes `0`, as the longest-match rule drops it. -/
def parseExponent (cs : List Char) : ℤ :=
  match cs with
  | c :: rest =>
      if c = 'e' ∨ c = 'E' then
        match rest with
        | '+' :: r2 =>
            (match takeDigits r2 with
             | ([], _) => 0
             | (ds, _) => (digitsVal ds : ℤ))
        | '-' :: r2 =>
            (match takeDigits r2 with
             | ([], _) => 0
             | (ds, _) => -(digitsVal ds : ℤ))
        | r2 =>
            (match takeDigits r2 with
             | ([], _) => 0
             | (ds, _) => (digitsVal ds : ℤ))
      else 0
  | [] => 0

/-- Unsigned part of the `parseFloat` grammar: `Infinity`, or digits with an
optional fraction and exponent.  `pos` records the sign already consumed. -/
def parseFloatUnsigned (cs : List Char) (pos : Bool) : JSNum :=
  if startsWithInfinity cs then JSNum.inf pos
  else
    let p1 := takeDigits cs
    let p2 : List Char × List Char :=
      match p1.2 with
      | '.' :: r2 => takeDigits r2
      | _ => ([], p1.2)
    if p1.1 = [] ∧ p2.1 = [] then JSNum.nan
    else
      let mant : ℚ := (digitsVal p1.1 : ℚ) + (digitsVal p2.1 : ℚ) / 10 ^ p2.1.length
      let v := mant * (10 : ℚ) ^ parseExponent p2.2
      JSNum.fin (if pos then v else -v)

/-- ECMAScript `parseFloat`: trim leading whitespace, read an optional sign,
then the longest match of the decimal-literal grammar; no match is `NaN`. -/
def parseFloat (s : String) : JSNum :=
  match dropLeadingWs s.data with
  | '+' :: rest => parseFloatUnsigned rest true
  | '-' :: rest => parseFloatUnsigned rest false
  | rest => parseFloatUnsigned rest true

/-- Record `AdditionalDeductions` from `types.ts`: three raw text fields. -/
structure AdditionalDeductions where
  pension : String
  nhf : String
  insurance : String
deriving DecidableEq

/-- Result of `parseDeductions`: one JavaScript number per field. -/
structure DeductionsJS where
  pension : JSNum
  nhf : JSNum
  insurance : JSNum
deriving DecidableEq

/-- Function `parseDeductions` from `utils.ts`:
`{ pension: parseFloat(d.pension) || 0, nhf: …, insurance: … }`. -/
def parseDeductions (d : AdditionalDeductions) : DeductionsJS :=
  { pension := jsOr0 (parseFloat d.pension)
    nhf := jsOr0 (parseFloat d.nhf)
    insurance := jsOr0 (parseFloat d.insurance) }

/-- Normalized deduction values once known to be finite, as consumed by the
arithmetic part of the engine. -/
structure Deductions where
  pension : ℚ
  nhf : ℚ
  insurance : ℚ
deriving DecidableEq

/-- The finite value of a `JSNum`, when it has one. -/
def JSNum.toFin : JSNum → Option ℚ
  | .fin q => some q
  | _ => none

/-- The three normalized deduction values when all are finite (`none` exactly
when some field normalises to an infinity, which `ℚ` cannot represent). -/
def parseDeductionsQ (d : AdditionalDeductions) : Option Deductions :=
  match (parseDeductions d).pension.toFin, (parseDeductions d).nhf.toFin,
      (parseDeductions d).insurance.toFin with
  | some p, some n, some i => some ⟨p, n, i⟩
  | _, _, _ => none

/-- Record `TaxBracket` from `types.ts`; `limit = none` embeds the `Infinity`
sentinel of the last bracket. -/
structure TaxBracket where
  limit : Option ℚ
  rate : ℚ
deriving DecidableEq

/-- Constant `LEGACY_BRACKETS` from `constants.ts`. -/
def LEGACY_BRACKETS : List TaxBracket :=
  [⟨some 300000, 0.07⟩, ⟨some 600000, 0.11⟩, ⟨some 1100000, 0.15⟩,
   ⟨some 1600000, 0.19⟩, ⟨some 3200000, 0.21⟩, ⟨none, 0.24⟩]

/-- Constant `REFORM_BRACKETS` from `constants.ts`. -/
def REFORM_BRACKETS : List TaxBracket :=
  [⟨some 800000, 0⟩, ⟨some 3000000, 0.15⟩, ⟨some 12000000, 0.18⟩,
   ⟨some 25000000, 0.21⟩, ⟨some 50000000, 0.23⟩, ⟨none, 0.25⟩]

/-- Record `BracketBreakdown` from `types.ts`.  The source stores `range` and `rate`
as display strings; they are embedded as the numeric data those strings
render (lower bound, upper bound with `none` for `Above`, and the rate). -/
structure BracketBreakdown where
  rangeLow : ℚ
  rangeHigh : Option ℚ
  rate : ℚ
  taxableAmount : ℚ
  tax : ℚ
deriving DecidableEq

/-- Output of `calculateAllowances`. -/
structure Allowances where
  totalAllowances : ℚ
  taxableIncome : ℚ
deriving DecidableEq

/-- Function `calculateAllowances` from `utils.ts`. -/
def calculateAllowances (annualGross : ℚ) (isReform : Bool)
    (totalAdditionalDeductions : ℚ) : Allowances :=
  let consolidatedReliefAllowance := max 200000 (annualGross * 0.01)
  if isReform then
    { totalAllowances := consolidatedReliefAllowance + totalAdditionalDeductions
      taxableIncome :=
        max 0 (annualGross - consolidatedReliefAllowance - totalAdditionalDeductions) }
  else
    let grossIncomeAllowance := annualGross * 0.2
    let totalAllowances :=
      consolidatedReliefAllowance + grossIncomeAllowance + totalAdditionalDeductions
    { totalAllowances := totalAllowances
      taxableIncome := max 0 (annualGross - totalAllowances) }

/-- The loop body of `calculateTaxByBrackets`: `ti` is the taxable income,
the first explicit argument is the running `previousLimit` (initially `0`).
Mirrors the source exactly: break when `ti ≤ previousLimit`; the bracket's
amount is `min ti limit - previousLimit`; a breakdown line is pushed only
when that amount is positive; break after a bracket whose limit covers
`ti` (the `Infinity` bracket always does). -/
def taxLoop (ti : ℚ) : ℚ → List TaxBracket → ℚ × List BracketBreakdown
  | _, [] => (0, [])
  | prev, ⟨none, rate⟩ :: _ =>
      if ti ≤ prev then (0, [])
      else
        let amt := ti - prev
        (amt * rate,
         if 0 < amt then [⟨prev, none, rate, amt, amt * rate⟩] else [])
  | prev, ⟨some l, rate⟩ :: rest =>
      if ti ≤ prev then (0, [])
      else
        let amt := min ti l - prev
        let t := amt * rate
        let line : List BracketBreakdown :=
          if 0 < amt then [⟨prev, some l, rate, amt, t⟩] else []
        if ti ≤ l then (t, line)
        else
          let r := taxLoop ti l rest
          (t + r.1, line ++ r.2)

/-- Function `calculateTaxByBrackets` from `utils.ts`: total tax and per-bracket
breakdown for a taxable income. -/
def calculateTaxByBrackets (taxableIncome : ℚ) (brackets : List TaxBracket) :
    ℚ × List BracketBreakdown :=
  taxLoop taxableIncome 0 brackets

/-- JavaScript `Math.round`: half-up rounding to an integer. -/
def jsRound (x : ℚ) : ℤ := ⌊x + 1 / 2⌋

/-- The expression `Math.round(x * 100) / 100`: the 2-decimal rounding used on every
monetary output field. -/
def jsRound2 (x : ℚ) : ℚ := (jsRound (x * 100) : ℚ) / 100

/-- Record `CalculationResult` from `types.ts`. -/
structure CalculationResult where
  monthlyPAYE : ℚ
  annualPAYE : ℚ
  effectiveTaxRate : ℚ
  taxableIncome : ℚ
  totalAllowances : ℚ
  bracketBreakdown : List BracketBreakdown
  netMonthlyPay : ℚ
  netAnnualPay : ℚ
deriving DecidableEq

/-- Function `calculatePAYE` from `utils.ts`, after its `parseDeductions` call: the
arithmetic engine on the normalized (finite) deduction values. -/
def calculatePAYE (monthlyGross : ℚ) (brackets : List TaxBracket)
    (isReform : Bool) (deductions : Deductions) : CalculationResult :=
  let annualGrossIncome := monthlyGross * 12
  let totalAdditionalDeductions :=
    (deductions.pension + deductions.nhf + deductions.insurance) * 12
  let a := calculateAllowances annualGrossIncome isReform totalAdditionalDeductions
  let t := calculateTaxByBrackets a.taxableIncome brackets
  let monthlyTax := t.1 / 12
  let effectiveTaxRate :=
    if 0 < annualGrossIncome then t.1 / annualGrossIncome * 100 else 0
  let netMonthlyPay :=
    monthlyGross - monthlyTax - deductions.pension - deductions.nhf -
      deductions.insurance
  { monthlyPAYE := jsRound2 monthlyTax
    annualPAYE := jsRound2 t.1
    effectiveTaxRate := jsRound2 effectiveTaxRate
    taxableIncome := jsRound2 a.taxableIncome
    totalAllowances := jsRound2 a.totalAllowances
    bracketBreakdown := t.2
    netMonthlyPay := jsRound2 netMonthlyPay
    netAnnualPay := jsRound2 (netMonthlyPay * 12) }

/-- The savings block of `Results`. -/
structure Savings where
  monthly : ℚ
  annual : ℚ
  percentage : ℚ
deriving DecidableEq

/-- Record `Results` from `types.ts`. -/
structure Results where
  legacy : CalculationResult
  reform : CalculationResult
  savings : Savings
  monthlyGross : ℚ
deriving DecidableEq

/-- Function `calculateResults` from `utils.ts` on normalized deduction values: run
both regimes and aggregate savings.  The percentage guard in the source is
`legacyResult.annualPAYE > 0`. -/
def calculateResultsN (monthlyAmount : ℚ) (d : Deductions) : Results :=
  let legacyResult := calculatePAYE monthlyAmount LEGACY_BRACKETS false d
  let reformResult := calculatePAYE monthlyAmount REFORM_BRACKETS true d
  let monthlySavings := legacyResult.monthlyPAYE - reformResult.monthlyPAYE
  let annualSavings := legacyResult.annualPAYE - reformResult.annualPAYE
  let savingsPercentage :=
    if 0 < legacyResult.annualPAYE then
      annualSavings / legacyResult.annualPAYE * 100
    else 0
  { legacy := legacyResult
    reform := reformResult
    savings :=
      { monthly := monthlySavings
        annual := annualSavings
        percentage := savingsPercentage }
    monthlyGross := monthlyAmount }

/-- Function `calculateResults` at the string boundary: normalize the deduction
strings, then run the comparison; `none` exactly when a deduction string
normalises to an infinity (unrepresentable in the `ℚ` idealisation). -/
def calculateResults (monthlyAmount : ℚ) (d : AdditionalDeductions) :
    Option Results :=
  (parseDeductionsQ d).map (calculateResultsN monthlyAmount)

/-- Sum of the `tax` fields of a breakdown list. -/
def sumBreakdownTax (l : List BracketBreakdown) : ℚ :=
  (l.map (fun b => b.tax)).sum

/-- All marginal rates in a bracket table are nonnegative. -/
def ratesNonneg : List TaxBracket → Bool
  | [] => true
  | b :: rest => decide (0 ≤ b.rate) && ratesNonneg rest

/-- Bracket limits are strictly increasing starting above `prev` (brackets
past an unbounded one are unreachable and unconstrained). -/
def limitsAsc (prev : ℚ) : List TaxBracket → Bool
  | [] => true
  | b :: rest =>
      match b.limit with
      | none => true
      | some l => decide (prev < l) && limitsAsc l rest

/-! ### Rounding lemmas -/

/-- Evaluation rule for `jsRound`. -/
theorem jsRound_eq (n : ℤ) (x : ℚ) (h1 : (n : ℚ) ≤ x + 1 / 2)
    (h2 : x + 1 / 2 < (n : ℚ) + 1) : jsRound x = n := by
  unfold jsRound
  rw [Int.floor_eq_iff]
  exact ⟨h1, by exact_mod_cast h2⟩

/-- Evaluation rule for `jsRound2`. -/
theorem jsRound2_eq (n : ℤ) (x q : ℚ) (h1 : (n : ℚ) ≤ x * 100 + 1 / 2)
    (h2 : x * 100 + 1 / 2 < (n : ℚ) + 1) (h3 : (n : ℚ) / 100 = q) :
    jsRound2 x = q := by
  unfold jsRound2
  rw [jsRound_eq n (x * 100) h1 h2, h3]

/-- Two-decimal rounding moves a value by at most half a cent. -/
theorem abs_jsRound2_sub_le (x : ℚ) : |jsRound2 x - x| ≤ 1 / 200 := by
  have h1 : ((⌊x * 100 + 1 / 2⌋ : ℤ) : ℚ) ≤ x * 100 + 1 / 2 := Int.floor_le _
  have h2 : x * 100 + 1 / 2 < (⌊x * 100 + 1 / 2⌋ : ℤ) + 1 := Int.lt_floor_add_one _
  unfold jsRound2 jsRound
  rw [abs_le]
  constructor <;> linarith

/-- Rounding `jsRound2` is monotone. -/
theorem jsRound2_mono {x y : ℚ} (h : x ≤ y) : jsRound2 x ≤ jsRound2 y := by
  unfold jsRound2 jsRound
  have hf := Int.floor_mono (show x * 100 + 1 / 2 ≤ y * 100 + 1 / 2 by linarith)
  have hq : ((⌊x * 100 + 1 / 2⌋ : ℤ) : ℚ) ≤ ((⌊y * 100 + 1 / 2⌋ : ℤ) : ℚ) := by
    exact_mod_cast hf
  linarith

/-! ### Structural lemmas about the bracket accumulator -/

/-- Income at or below the running lower bound contributes nothing. -/
theorem taxLoop_of_le (ti prev : ℚ) (bs : List TaxBracket) (h : ti ≤ prev) :
    taxLoop ti prev bs = (0, []) := by
  match bs with
  | [] => rfl
  | ⟨none, rate⟩ :: rest => simp [taxLoop, h]
  | ⟨some l, rate⟩ :: rest => simp [taxLoop, h]

/-- With nonnegative rates and ascending limits, the accumulated tax is
nonnegative. -/
theorem taxLoop_fst_nonneg (ti : ℚ) (bs : List TaxBracket) :
    ∀ prev : ℚ, ratesNonneg bs = true → limitsAsc prev bs = true →
      0 ≤ (taxLoop ti prev bs).1 := by
  induction bs with
  | nil => intro prev _ _; simp [taxLoop]
  | cons b rest ih =>
    intro prev hr hl
    obtain ⟨lim, rate⟩ := b
    rw [ratesNonneg, Bool.and_eq_true, decide_eq_true_eq] at hr
    by_cases h1 : ti ≤ prev
    · rw [taxLoop_of_le ti prev _ h1]
    · cases lim with
      | none =>
        simp only [taxLoop, if_neg h1]
        exact mul_nonneg (by linarith [not_le.mp h1]) hr.1
      | some l =>
        rw [limitsAsc, Bool.and_eq_true, decide_eq_true_eq] at hl
        have hamt : 0 ≤ min ti l - prev :=
          sub_nonneg.mpr (le_min (le_of_lt (not_le.mp h1)) (le_of_lt hl.1))
        by_cases h2 : ti ≤ l
        · simp only [taxLoop, if_neg h1, if_pos h2]
          exact mul_nonneg hamt hr.1
        · simp only [taxLoop, if_neg h1, if_neg h2]
          exact add_nonneg (mul_nonneg hamt hr.1) (ih l hr.2 hl.2)

/-- With nonnegative rates and ascending limits, the accumulated tax is
monotone in the taxable income. -/
theorem taxLoop_fst_mono (ti1 ti2 : ℚ) (h : ti1 ≤ ti2) (bs : List TaxBracket) :
    ∀ prev : ℚ, ratesNonneg bs = true → limitsAsc prev bs = true →
      (taxLoop ti1 prev bs).1 ≤ (taxLoop ti2 prev bs).1 := by
  induction bs with
  | nil => intro prev _ _; simp [taxLoop]
  | cons b rest ih =>
    intro prev hr hl
    obtain ⟨lim, rate⟩ := b
    have hr' := hr
    rw [ratesNonneg, Bool.and_eq_true, decide_eq_true_eq] at hr
    by_cases h1 : ti1 ≤ prev
    · rw [taxLoop_of_le ti1 prev _ h1]
      exact taxLoop_fst_nonneg ti2 _ prev hr' hl
    · have h2 : ¬ ti2 ≤ prev := fun hh => h1 (le_trans h hh)
      cases lim with
      | none =>
        simp only [taxLoop, if_neg h1, if_neg h2]
        exact mul_le_mul_of_nonneg_right (by linarith) hr.1
      | some l =>
        rw [limitsAsc, Bool.and_eq_true, decide_eq_true_eq] at hl
        have hmin : min ti1 l ≤ min ti2 l := min_le_min h le_rfl
        by_cases h3 : ti1 ≤ l
        · by_cases h4 : ti2 ≤ l
          · simp only [taxLoop, if_neg h1, if_neg h2, if_pos h3, if_pos h4]
            exact mul_le_mul_of_nonneg_right (by linarith) hr.1
          · simp only [taxLoop, if_neg h1, if_neg h2, if_pos h3, if_neg h4]
            have hrec : 0 ≤ (taxLoop ti2 l rest).1 :=
              taxLoop_fst_nonneg ti2 rest l hr.2 hl.2
            have hm : (min ti1 l - prev) * rate ≤ (min ti2 l - prev) * rate :=
              mul_le_mul_of_nonneg_right (by linarith) hr.1
            linarith
        · have h4 : ¬ ti2 ≤ l := fun hh => h3 (le_trans h hh)
          simp only [taxLoop, if_neg h1, if_neg h2, if_neg h3, if_neg h4]
          have e1 : min ti1 l = l := min_eq_right (le_of_not_le h3)
          have e2 : min ti2 l = l := min_eq_right (le_of_not_le h4)
          have hrec := ih l hr.2 hl.2
          rw [e1, e2]
          linarith

/-- With strictly ascending limits, every bracket reached emits its line, so
the breakdown taxes sum to the accumulated tax exactly. -/
theorem taxLoop_sum (ti : ℚ) (bs : List TaxBracket) :
    ∀ prev : ℚ, limitsAsc prev bs = true →
      sumBreakdownTax (taxLoop ti prev bs).2 = (taxLoop ti prev bs).1 := by
  induction bs with
  | nil => intro prev _; simp [taxLoop, sumBreakdownTax]
  | cons b rest ih =>
    intro prev hl
    obtain ⟨lim, rate⟩ := b
    by_cases h1 : ti ≤ prev
    · rw [taxLoop_of_le ti prev _ h1]; simp [sumBreakdownTax]
    · cases lim with
      | none =>
        have hamt : 0 < ti - prev := by linarith [not_le.mp h1]
        simp [taxLoop, if_neg h1, hamt, sumBreakdownTax]
      | some l =>
        rw [limitsAsc, Bool.and_eq_true, decide_eq_true_eq] at hl
        have hamt : 0 < min ti l - prev :=
          sub_pos.mpr (lt_min (not_le.mp h1) hl.1)
        by_cases h2 : ti ≤ l
        · simp [taxLoop, if_neg h1, if_pos h2, hamt, sumBreakdownTax]
        · simp only [taxLoop, if_neg h1, if_neg h2, if_pos hamt]
          have := ih l hl.2
          simp [sumBreakdownTax] at this ⊢
          linarith

/-- Every emitted breakdown line has a positive taxable amount. -/
theorem taxLoop_mem_pos (ti : ℚ) (bs : List TaxBracket) :
    ∀ (prev : ℚ) (br : BracketBreakdown), br ∈ (taxLoop ti prev bs).2 →
      0 < br.taxableAmount := by
  induction bs with
  | nil => intro prev br hm; simp [taxLoop] at hm
  | cons b rest ih =>
    intro prev br hm
    obtain ⟨lim, rate⟩ := b
    by_cases h1 : ti ≤ prev
    · rw [taxLoop_of_le ti prev _ h1] at hm; simp at hm
    · cases lim with
      | none =>
        simp only [taxLoop, if_neg h1] at hm
        by_cases hamt : 0 < ti - prev
        · rw [if_pos hamt] at hm
          simp at hm
          rw [hm]
          exact hamt
        · rw [if_neg hamt] at hm; simp at hm
      | some l =>
        by_cases h2 : ti ≤ l
        · simp only [taxLoop, if_neg h1, if_pos h2] at hm
          by_cases hamt : 0 < min ti l - prev
          · rw [if_pos hamt] at hm
            simp at hm
            rw [hm]
            exact hamt
          · rw [if_neg hamt] at hm; simp at hm
        · simp only [taxLoop, if_neg h1, if_neg h2, List.mem_append] at hm
          rcases hm with hm | hm
          · by_cases hamt : 0 < min ti l - prev
            · rw [if_pos hamt] at hm
              simp at hm
              rw [hm]
              exact hamt
            · rw [if_neg hamt] at hm; simp at hm
          · exact ih l br hm

/-! ### Facts about the two bracket tables -/

theorem legacy_ratesNonneg : ratesNonneg LEGACY_BRACKETS = true := by
  norm_num [ratesNonneg, LEGACY_BRACKETS]

theorem reform_ratesNonneg : ratesNonneg REFORM_BRACKETS = true := by
  norm_num [ratesNonneg, REFORM_BRACKETS]

theorem legacy_limitsAsc : limitsAsc 0 LEGACY_BRACKETS = true := by
  norm_num [limitsAsc, LEGACY_BRACKETS]

theorem reform_limitsAsc : limitsAsc 0 REFORM_BRACKETS = true := by
  norm_num [limitsAsc, REFORM_BRACKETS]

/-! ### Allowance lemmas -/

/-- Taxable income is monotone in annual gross, deductions held fixed. -/
theorem calculateAllowances_ti_mono (iR : Bool) (D G1 G2 : ℚ) (h : G1 ≤ G2) :
    (calculateAllowances G1 iR D).taxableIncome ≤
      (calculateAllowances G2 iR D).taxableIncome := by
  have hM : max (200000 : ℚ) (G2 * 0.01) ≤
      max (200000 : ℚ) (G1 * 0.01) + (G2 - G1) * 0.01 := by
    rcases max_cases (200000 : ℚ) (G2 * 0.01) with ⟨h2, _⟩ | ⟨h2, _⟩ <;>
      rcases max_cases (200000 : ℚ) (G1 * 0.01) with ⟨h1, _⟩ | ⟨h1, _⟩ <;>
        rw [h2, h1] <;> linarith
  cases iR <;> simp only [calculateAllowances, Bool.false_eq_true, if_false, if_true] <;>
    exact max_le_max le_rfl (by linarith)

/-- For the legacy regime with no extra deductions and annual gross at least
250000, the taxable-income floor does not bind and allowances plus taxable
income recover the gross exactly. -/
theorem allow_sum_legacy (G : ℚ) (h : 250000 ≤ G) :
    (calculateAllowances G false 0).totalAllowances +
      (calculateAllowances G false 0).taxableIncome = G := by
  simp only [calculateAllowances, Bool.false_eq_true, if_false]
  have hmax : max (200000 : ℚ) (G * 0.01) ≤ G * 0.8 :=
    max_le (by linarith) (by linarith)
  have hfloor : (0 : ℚ) ≤ G - (max 200000 (G * 0.01) + G * 0.2 + 0) := by linarith
  rw [max_eq_right hfloor]
  ring

/-- Same for the reform regime. -/
theorem allow_sum_reform (G : ℚ) (h : 250000 ≤ G) :
    (calculateAllowances G true 0).totalAllowances +
      (calculateAllowances G true 0).taxableIncome = G := by
  simp only [calculateAllowances, if_true]
  have hmax : max (200000 : ℚ) (G * 0.01) ≤ G :=
    max_le (by linarith) (by linarith)
  have hfloor : (0 : ℚ) ≤ G - max 200000 (G * 0.01) - 0 := by linarith
  rw [max_eq_right hfloor]
  ring

/-! ### Projection lemmas for the engine -/

theorem calculatePAYE_annualPAYE (g : ℚ) (bs : List TaxBracket) (iR : Bool)
    (d : Deductions) :
    (calculatePAYE g bs iR d).annualPAYE =
      jsRound2 (calculateTaxByBrackets
        (calculateAllowances (g * 12) iR
          ((d.pension + d.nhf + d.insurance) * 12)).taxableIncome bs).1 := rfl

theorem calculatePAYE_monthlyPAYE (g : ℚ) (bs : List TaxBracket) (iR : Bool)
    (d : Deductions) :
    (calculatePAYE g bs iR d).monthlyPAYE =
      jsRound2 ((calculateTaxByBrackets
        (calculateAllowances (g * 12) iR
          ((d.pension + d.nhf + d.insurance) * 12)).taxableIncome bs).1 / 12) := rfl

theorem calculatePAYE_taxableIncome (g : ℚ) (bs : List TaxBracket) (iR : Bool)
    (d : Deductions) :
    (calculatePAYE g bs iR d).taxableIncome =
      jsRound2 (calculateAllowances (g * 12) iR
        ((d.pension + d.nhf + d.insurance) * 12)).taxableIncome := rfl

theorem calculatePAYE_totalAllowances (g : ℚ) (bs : List TaxBracket) (iR : Bool)
    (d : Deductions) :
    (calculatePAYE g bs iR d).totalAllowances =
      jsRound2 (calculateAllowances (g * 12) iR
        ((d.pension + d.nhf + d.insurance) * 12)).totalAllowances := rfl

theorem calculatePAYE_bracketBreakdown (g : ℚ) (bs : List TaxBracket) (iR : Bool)
    (d : Deductions) :
    (calculatePAYE g bs iR d).bracketBreakdown =
      (calculateTaxByBrackets
        (calculateAllowances (g * 12) iR
          ((d.pension + d.nhf + d.insurance) * 12)).taxableIncome bs).2 := rfl

theorem calculateResultsN_legacy (m : ℚ) (d : Deductions) :
    (calculateResultsN m d).legacy = calculatePAYE m LEGACY_BRACKETS false d := rfl

theorem calculateResultsN_reform (m : ℚ) (d : Deductions) :
    (calculateResultsN m d).reform = calculatePAYE m REFORM_BRACKETS true d := rfl

theorem calculateResultsN_savings_monthly (m : ℚ) (d : Deductions) :
    (calculateResultsN m d).savings.monthly =
      (calculatePAYE m LEGACY_BRACKETS false d).monthlyPAYE -
        (calculatePAYE m REFORM_BRACKETS true d).monthlyPAYE := rfl

theorem calculateResultsN_savings_annual (m : ℚ) (d : Deductions) :
    (calculateResultsN m d).savings.annual =
      (calculatePAYE m LEGACY_BRACKETS false d).annualPAYE -
        (calculatePAYE m REFORM_BRACKETS true d).annualPAYE := rfl

theorem calculateResultsN_savings_percentage (m : ℚ) (d : Deductions) :
    (calculateResultsN m d).savings.percentage =
      if 0 < (calculatePAYE m LEGACY_BRACKETS false d).annualPAYE then
        ((calculatePAYE m LEGACY_BRACKETS false d).annualPAYE -
            (calculatePAYE m REFORM_BRACKETS true d).annualPAYE) /
          (calculatePAYE m LEGACY_BRACKETS false d).annualPAYE * 100
      else 0 := rfl

/-- Empty deduction strings normalize to three zero values. -/
theorem parseDeductionsQ_empty : parseDeductionsQ ⟨"", "", ""⟩ = some ⟨0, 0, 0⟩ := rfl

/-! ### Concrete evaluation at monthly gross 500000, no deductions -/

theorem allow_legacy_6M : calculateAllowances 6000000 false 0 = ⟨1400000, 4600000⟩ := by
  norm_num [calculateAllowances, max_def]

theorem allow_reform_6M : calculateAllowances 6000000 true 0 = ⟨200000, 5800000⟩ := by
  norm_num [calculateAllowances, max_def]

theorem tax_legacy_46 :
    calculateTaxByBrackets 4600000 LEGACY_BRACKETS =
      (896000,
       [⟨0, some 300000, 0.07, 300000, 21000⟩,
        ⟨300000, some 600000, 0.11, 300000, 33000⟩,
        ⟨600000, some 1100000, 0.15, 500000, 75000⟩,
        ⟨1100000, some 1600000, 0.19, 500000, 95000⟩,
        ⟨1600000, some 3200000, 0.21, 1600000, 336000⟩,
        ⟨3200000, none, 0.24, 1400000, 336000⟩]) := by
  norm_num [calculateTaxByBrackets, taxLoop, LEGACY_BRACKETS, min_def, Prod.ext_iff]

theorem tax_reform_58 :
    calculateTaxByBrackets 5800000 REFORM_BRACKETS =
      (834000,
       [⟨0, some 800000, 0, 800000, 0⟩,
        ⟨800000, some 3000000, 0.15, 2200000, 330000⟩,
        ⟨3000000, some 12000000, 0.18, 2800000, 504000⟩]) := by
  norm_num [calculateTaxByBrackets, taxLoop, REFORM_BRACKETS, min_def, Prod.ext_iff]

/-- The full legacy result at monthly gross 500000 with zero deductions. -/
theorem legacy500k_eq :
    calculatePAYE 500000 LEGACY_BRACKETS false ⟨0, 0, 0⟩ =
      { monthlyPAYE := 74666.67
        annualPAYE := 896000
        effectiveTaxRate := 14.93
        taxableIncome := 4600000
        totalAllowances := 1400000
        bracketBreakdown :=
          [⟨0, some 300000, 0.07, 300000, 21000⟩,
           ⟨300000, some 600000, 0.11, 300000, 33000⟩,
           ⟨600000, some 1100000, 0.15, 500000, 75000⟩,
           ⟨1100000, some 1600000, 0.19, 500000, 95000⟩,
           ⟨1600000, some 3200000, 0.21, 1600000, 336000⟩,
           ⟨3200000, none, 0.24, 1400000, 336000⟩]
        netMonthlyPay := 425333.33
        netAnnualPay := 5104000 } := by
  have e1 : ((500000 : ℚ) * 12) = 6000000 := by norm_num
  have e2 : ((((⟨0, 0, 0⟩ : Deductions).pension + (⟨0, 0, 0⟩ : Deductions).nhf +
      (⟨0, 0, 0⟩ : Deductions).insurance)) * 12) = 0 := by norm_num
  simp only [calculatePAYE, e1, e2, allow_legacy_6M, tax_legacy_46]
  simp only [CalculationResult.mk.injEq]
  refine ⟨?_, ?_, ?_, ?_, ?_, trivial, ?_, ?_⟩
  · exact jsRound2_eq 7466667 _ _ (by norm_num) (by norm_num) (by norm_num)
  · exact jsRound2_eq 89600000 _ _ (by norm_num) (by norm_num) (by norm_num)
  · rw [if_pos (by norm_num : (0 : ℚ) < 6000000)]
    exact jsRound2_eq 1493 _ _ (by norm_num) (by norm_num) (by norm_num)
  · exact jsRound2_eq 460000000 _ _ (by norm_num) (by norm_num) (by norm_num)
  · exact jsRound2_eq 140000000 _ _ (by norm_num) (by norm_num) (by norm_num)
  · exact jsRound2_eq 42533333 _ _ (by norm_num) (by norm_num) (by norm_num)
  · exact jsRound2_eq 510400000 _ _ (by norm_num) (by norm_num) (by norm_num)

/-- The full reform result at monthly gross 500000 with zero deductions. -/
theorem reform500k_eq :
    calculatePAYE 500000 REFORM_BRACKETS true ⟨0, 0, 0⟩ =
      { monthlyPAYE := 69500
        annualPAYE := 834000
        effectiveTaxRate := 13.9
        taxableIncome := 5800000
        totalAllowances := 200000
        bracketBreakdown :=
          [⟨0, some 800000, 0, 800000, 0⟩,
           ⟨800000, some 3000000, 0.15, 2200000, 330000⟩,
           ⟨3000000, some 12000000, 0.18, 2800000, 504000⟩]
        netMonthlyPay := 430500
        netAnnualPay := 5166000 } := by
  have e1 : ((500000 : ℚ) * 12) = 6000000 := by norm_num
  have e2 : ((((⟨0, 0, 0⟩ : Deductions).pension + (⟨0, 0, 0⟩ : Deductions).nhf +
      (⟨0, 0, 0⟩ : Deductions).insurance)) * 12) = 0 := by norm_num
  simp only [calculatePAYE, e1, e2, allow_reform_6M, tax_reform_58]
  simp only [CalculationResult.mk.injEq]
  refine ⟨?_, ?_, ?_, ?_, ?_, trivial, ?_, ?_⟩
  · exact jsRound2_eq 6950000 _ _ (by norm_num) (by norm_num) (by norm_num)
  · exact jsRound2_eq 83400000 _ _ (by norm_num) (by norm_num) (by norm_num)
  · rw [if_pos (by norm_num : (0 : ℚ) < 6000000)]
    exact jsRound2_eq 1390 _ _ (by norm_num) (by norm_num) (by norm_num)
  · exact jsRound2_eq 580000000 _ _ (by norm_num) (by norm_num) (by norm_num)
  · exact jsRound2_eq 20000000 _ _ (by norm_num) (by norm_num) (by norm_num)
  · exact jsRound2_eq 43050000 _ _ (by norm_num) (by norm_num) (by norm_num)
  · exact jsRound2_eq 516600000 _ _ (by norm_num) (by norm_num) (by norm_num)

/-! ### Lemmas about the deduction normalizer -/

theorem jsOr0_nan : jsOr0 JSNum.nan = JSNum.fin 0 := rfl

theorem jsOr0_inf (b : Bool) : jsOr0 (JSNum.inf b) = JSNum.inf b := rfl

theorem jsOr0_fin (q : ℚ) (h : q ≠ 0) : jsOr0 (JSNum.fin q) = JSNum.fin q := by
  simp [jsOr0, JSNum.falsy, h]

theorem jsOr0_fin_zero : jsOr0 (JSNum.fin 0) = JSNum.fin 0 := by
  simp [jsOr0, JSNum.falsy]

/-- The expression `x || 0` never yields `NaN`. -/
theorem jsOr0_ne_nan (j : JSNum) : jsOr0 j ≠ JSNum.nan := by
  cases j with
  | nan => simp [jsOr0, JSNum.falsy]
  | inf b => simp [jsOr0, JSNum.falsy]
  | fin q =>
    by_cases h : q = 0 <;> simp [jsOr0, JSNum.falsy, h]

/-- A string with a numeric prefix parses to the value of that prefix. -/
theorem parseFloat_5000abc : parseFloat ("5000abc") = JSNum.fin 5000 := by
  have h : parseFloat ("5000abc") =
      JSNum.fin ((((5000 : ℕ) : ℚ) + ((0 : ℕ) : ℚ) / 10 ^ (0 : ℕ)) * 10 ^ (0 : ℤ)) := rfl
  rw [h]
  norm_num

/-- A negative literal parses to a negative value. -/
theorem parseFloat_neg5 : parseFloat ("-5") = JSNum.fin (-5) := by
  have h : parseFloat ("-5") =
      JSNum.fin (-((((5 : ℕ) : ℚ) + ((0 : ℕ) : ℚ) / 10 ^ (0 : ℕ)) * 10 ^ (0 : ℤ))) := rfl
  rw [h]
  norm_num

/-- The JavaScript number is nonnegative (`NaN` is not counted). -/
def JSNum.nonneg : JSNum → Prop
  | .nan => False
  | .inf b => b = true
  | .fin q => 0 ≤ q

/-- C8: the deduction normalizer is a total function: every field of its
output is a number (never `NaN`), and a string that fails to parse — the
empty string in particular — normalizes to exactly `0`. -/
theorem claim_C8 :
    (∀ d : AdditionalDeductions,
        (parseDeductions d).pension ≠ JSNum.nan ∧
        (parseDeductions d).nhf ≠ JSNum.nan ∧
        (parseDeductions d).insurance ≠ JSNum.nan) ∧
    (∀ s : String, parseFloat s = JSNum.nan → jsOr0 (parseFloat s) = JSNum.fin 0) ∧
    jsOr0 (parseFloat ("")) = JSNum.fin 0 := by
  refine ⟨fun d => ⟨jsOr0_ne_nan _, jsOr0_ne_nan _, jsOr0_ne_nan _⟩, fun s h => ?_, rfl⟩
  rw [h]
  exact jsOr0_nan

/-- Witness for C8 at the unparseable string `abc`. -/
theorem claim_C8_witness :
    parseFloat ("abc") = JSNum.nan ∧ jsOr0 (parseFloat ("abc")) = JSNum.fin 0 :=
  ⟨rfl, claim_C8.2.1 ("abc") rfl⟩

/-- C9 counterexample: the deduction string `-5` normalizes to the negative
number `-5`, so the normalized values are not always nonnegative. -/
theorem claim_C9_counterexample :
    (parseDeductions ⟨"-5", "", ""⟩).pension = JSNum.fin (-5) ∧ ((-5 : ℚ) < 0) := by
  constructor
  · show jsOr0 (parseFloat ("-5")) = JSNum.fin (-5)
    rw [parseFloat_neg5]
    exact jsOr0_fin (-5) (by norm_num)
  · norm_num

/-- C9 (amended): the normalized value is nonnegative provided the input
string does not itself parse to a negative number (negative finite value or
negative infinity); in particular invalid and empty strings yield `0`. -/
theorem claim_C9_amended (s : String)
    (hfin : ∀ q : ℚ, parseFloat s = JSNum.fin q → 0 ≤ q)
    (hinf : parseFloat s ≠ JSNum.inf false) :
    (jsOr0 (parseFloat s)).nonneg := by
  rcases hp : parseFloat s with _ | b | q
  · rw [jsOr0_nan]
    show (0 : ℚ) ≤ 0
    exact le_rfl
  · rw [jsOr0_inf]
    cases b with
    | false => exact absurd hp hinf
    | true => rfl
  · have hq := hfin q hp
    by_cases h0 : q = 0
    · rw [h0, jsOr0_fin_zero]
      show (0 : ℚ) ≤ 0
      exact le_rfl
    · rw [jsOr0_fin q h0]
      exact hq

/-- Witness for the amended C9 at the input `5000abc`. -/
theorem claim_C9_witness : (jsOr0 (parseFloat ("5000abc"))).nonneg :=
  claim_C9_amended ("5000abc")
    (fun q hq => by
      rw [parseFloat_5000abc] at hq
      cases hq
      norm_num)
    (by rw [parseFloat_5000abc]; exact fun h => JSNum.noConfusion h)

/-- C10: a deduction string with a valid numeric prefix followed by trailing
garbage normalizes to the prefix value (`5000abc` to `5000`), and the
normalizer yields `0` exactly for strings that parse to `NaN` or to `0`. -/
theorem claim_C10 :
    jsOr0 (parseFloat ("5000abc")) = JSNum.fin 5000 ∧
    (∀ s : String, jsOr0 (parseFloat s) = JSNum.fin 0 ↔
        parseFloat s = JSNum.nan ∨ parseFloat s = JSNum.fin 0) := by
  constructor
  · rw [parseFloat_5000abc]
    exact jsOr0_fin 5000 (by norm_num)
  · intro s
    rcases hp : parseFloat s with _ | b | q
    · simp [hp, jsOr0_nan]
    · simp [hp, jsOr0_inf]
    · by_cases h0 : q = 0
      · subst h0
        simp [hp, jsOr0_fin_zero]
      · simp [hp, jsOr0_fin q h0, h0]

/-! ### The claims about the engine -/

/-- C1: at monthly gross 500000 with all deduction strings empty, the compare
entry point returns legacy annualPAYE 896000 / monthlyPAYE 74666.67 (taxable
income 4600000, total allowances 1400000), reform annualPAYE 834000 /
monthlyPAYE 69500 (taxable income 5800000), monthly savings 5166.67 and a
savings percentage within 0.01 of 6.92. -/
theorem claim_C1 :
    calculateResults 500000 ⟨"", "", ""⟩ = some (calculateResultsN 500000 ⟨0, 0, 0⟩) ∧
    (calculateResultsN 500000 ⟨0, 0, 0⟩).legacy.annualPAYE = 896000 ∧
    (calculateResultsN 500000 ⟨0, 0, 0⟩).legacy.monthlyPAYE = 74666.67 ∧
    (calculateResultsN 500000 ⟨0, 0, 0⟩).legacy.taxableIncome = 4600000 ∧
    (calculateResultsN 500000 ⟨0, 0, 0⟩).legacy.totalAllowances = 1400000 ∧
    (calculateResultsN 500000 ⟨0, 0, 0⟩).reform.annualPAYE = 834000 ∧
    (calculateResultsN 500000 ⟨0, 0, 0⟩).reform.monthlyPAYE = 69500 ∧
    (calculateResultsN 500000 ⟨0, 0, 0⟩).reform.taxableIncome = 5800000 ∧
    (calculateResultsN 500000 ⟨0, 0, 0⟩).savings.monthly = 5166.67 ∧
    |(calculateResultsN 500000 ⟨0, 0, 0⟩).savings.percentage - 6.92| < 0.01 := by
  refine ⟨rfl, ?_, ?_, ?_, ?_, ?_, ?_, ?_, ?_, ?_⟩ <;>
    simp only [calculateResultsN_legacy, calculateResultsN_reform,
      calculateResultsN_savings_monthly, calculateResultsN_savings_percentage,
      legacy500k_eq, reform500k_eq] <;>
    norm_num [abs_lt]

/-- Helper for locating the exact-sum argument inside rounding noise. -/
theorem abs_sum_round_le (G ta ti a b : ℚ) (hsum : ta + ti = G)
    (h1 : |a - ta| ≤ 1 / 200) (h2 : |b - ti| ≤ 1 / 200) :
    |a + b - G| ≤ 0.01 := by
  have he : a + b - G = (a - ta) + (b - ti) := by rw [← hsum]; ring
  rw [he]
  calc |(a - ta) + (b - ti)| ≤ |a - ta| + |b - ti| := abs_add _ _
    _ ≤ 1 / 200 + 1 / 200 := add_le_add h1 h2
    _ = 0.01 := by norm_num

/-- C2 counterexample: at monthly gross 0 (empty deduction strings) the
legacy result reports totalAllowances 200000 and taxableIncome 0, so their
sum misses the annual gross 0 by 200000 — far outside the 0.01 tolerance.
The reported totalAllowances is the allowance sum, not gross minus taxable
income. -/
theorem claim_C2_counterexample :
    calculateResults 0 ⟨"", "", ""⟩ = some (calculateResultsN 0 ⟨0, 0, 0⟩) ∧
    (calculateResultsN 0 ⟨0, 0, 0⟩).legacy.totalAllowances = 200000 ∧
    (calculateResultsN 0 ⟨0, 0, 0⟩).legacy.taxableIncome = 0 ∧
    ¬ (|(calculateResultsN 0 ⟨0, 0, 0⟩).legacy.totalAllowances +
          (calculateResultsN 0 ⟨0, 0, 0⟩).legacy.taxableIncome - 0 * 12| ≤ 0.01) := by
  have hA0 : calculateAllowances 0 false 0 = ⟨200000, 0⟩ := by
    norm_num [calculateAllowances, max_def]
  have e1 : ((0 : ℚ) * 12) = 0 := by norm_num
  have e2 : (((⟨0, 0, 0⟩ : Deductions).pension + (⟨0, 0, 0⟩ : Deductions).nhf +
      (⟨0, 0, 0⟩ : Deductions).insurance) * 12) = 0 := by norm_num
  have hTA : (calculateResultsN 0 ⟨0, 0, 0⟩).legacy.totalAllowances = 200000 := by
    rw [calculateResultsN_legacy, calculatePAYE_totalAllowances, e1, e2, hA0]
    exact jsRound2_eq 20000000 _ _ (by norm_num) (by norm_num) (by norm_num)
  have hTI : (calculateResultsN 0 ⟨0, 0, 0⟩).legacy.taxableIncome = 0 := by
    rw [calculateResultsN_legacy, calculatePAYE_taxableIncome, e1, e2, hA0]
    exact jsRound2_eq 0 _ _ (by norm_num) (by norm_num) (by norm_num)
  refine ⟨rfl, hTA, hTI, ?_⟩
  rw [hTA, hTI]
  norm_num

/-- C2 (amended): for annual gross at least 250000 (so the taxable-income
floor does not bind) and empty deduction strings, each regime's reported
totalAllowances plus taxableIncome equals the annual gross within 0.01. -/
theorem claim_C2_amended (g : ℚ) (r : Results) (hg : 250000 ≤ 12 * g)
    (h : calculateResults g ⟨"", "", ""⟩ = some r) :
    |r.legacy.totalAllowances + r.legacy.taxableIncome - g * 12| ≤ 0.01 ∧
    |r.reform.totalAllowances + r.reform.taxableIncome - g * 12| ≤ 0.01 := by
  rw [calculateResults, parseDeductionsQ_empty] at h
  simp only [Option.map_some', Option.some.injEq] at h
  subst h
  have e2 : (((⟨0, 0, 0⟩ : Deductions).pension + (⟨0, 0, 0⟩ : Deductions).nhf +
      (⟨0, 0, 0⟩ : Deductions).insurance) * 12) = 0 := by norm_num
  constructor
  · rw [calculateResultsN_legacy, calculatePAYE_totalAllowances,
      calculatePAYE_taxableIncome, e2]
    exact abs_sum_round_le _ _ _ _ _ (allow_sum_legacy (g * 12) (by linarith))
      (abs_jsRound2_sub_le _) (abs_jsRound2_sub_le _)
  · rw [calculateResultsN_reform, calculatePAYE_totalAllowances,
      calculatePAYE_taxableIncome, e2]
    exact abs_sum_round_le _ _ _ _ _ (allow_sum_reform (g * 12) (by linarith))
      (abs_jsRound2_sub_le _) (abs_jsRound2_sub_le _)

/-- Witness for the amended C2 at monthly gross 500000. -/
theorem claim_C2_witness :
    |(calculateResultsN 500000 ⟨0, 0, 0⟩).legacy.totalAllowances +
        (calculateResultsN 500000 ⟨0, 0, 0⟩).legacy.taxableIncome - 500000 * 12| ≤ 0.01 ∧
    |(calculateResultsN 500000 ⟨0, 0, 0⟩).reform.totalAllowances +
        (calculateResultsN 500000 ⟨0, 0, 0⟩).reform.taxableIncome - 500000 * 12| ≤ 0.01 :=
  claim_C2_amended 500000 (calculateResultsN 500000 ⟨0, 0, 0⟩) (by norm_num) rfl

/-- C3: the annual PAYE reported by the compare entry point is monotone in
the monthly gross, for fixed deduction strings, in both regimes. -/
theorem claim_C3 (d : AdditionalDeductions) (g1 g2 : ℚ) (r1 r2 : Results)
    (hg0 : 0 ≤ g1) (hg : g1 ≤ g2)
    (h1 : calculateResults g1 d = some r1) (h2 : calculateResults g2 d = some r2) :
    r1.legacy.annualPAYE ≤ r2.legacy.annualPAYE ∧
    r1.reform.annualPAYE ≤ r2.reform.annualPAYE := by
  rw [calculateResults] at h1 h2
  rcases hq : parseDeductionsQ d with _ | q
  · rw [hq] at h1
    simp at h1
  · rw [hq] at h1 h2
    simp only [Option.map_some', Option.some.injEq] at h1 h2
    subst h1
    subst h2
    have hG : g1 * 12 ≤ g2 * 12 := by linarith
    constructor
    · rw [calculateResultsN_legacy, calculateResultsN_legacy,
        calculatePAYE_annualPAYE, calculatePAYE_annualPAYE]
      exact jsRound2_mono (taxLoop_fst_mono _ _
        (calculateAllowances_ti_mono false ((q.pension + q.nhf + q.insurance) * 12)
          (g1 * 12) (g2 * 12) hG)
        LEGACY_BRACKETS 0 legacy_ratesNonneg legacy_limitsAsc)
    · rw [calculateResultsN_reform, calculateResultsN_reform,
        calculatePAYE_annualPAYE, calculatePAYE_annualPAYE]
      exact jsRound2_mono (taxLoop_fst_mono _ _
        (calculateAllowances_ti_mono true ((q.pension + q.nhf + q.insurance) * 12)
          (g1 * 12) (g2 * 12) hG)
        REFORM_BRACKETS 0 reform_ratesNonneg reform_limitsAsc)

/-- Witness for C3 at monthly grosses 100000 and 200000, no deductions. -/
theorem claim_C3_witness :
    (calculateResultsN 100000 ⟨0, 0, 0⟩).legacy.annualPAYE ≤
        (calculateResultsN 200000 ⟨0, 0, 0⟩).legacy.annualPAYE ∧
    (calculateResultsN 100000 ⟨0, 0, 0⟩).reform.annualPAYE ≤
        (calculateResultsN 200000 ⟨0, 0, 0⟩).reform.annualPAYE :=
  claim_C3 ⟨"", "", ""⟩ 100000 200000 _ _ (by norm_num) (by norm_num) rfl rfl

/-- The breakdown taxes of a well-formed table sum to within 0.01 of the
rounded annual tax. -/
theorem sum_round_close (ti : ℚ) (bs : List TaxBracket)
    (hA : limitsAsc 0 bs = true) :
    |sumBreakdownTax (calculateTaxByBrackets ti bs).2 -
        jsRound2 (calculateTaxByBrackets ti bs).1| ≤ 0.01 := by
  rw [calculateTaxByBrackets, taxLoop_sum ti bs 0 hA, abs_sub_comm]
  have h := abs_jsRound2_sub_le (taxLoop ti 0 bs).1
  calc |jsRound2 (taxLoop ti 0 bs).1 - (taxLoop ti 0 bs).1| ≤ 1 / 200 := h
    _ ≤ 0.01 := by norm_num

/-- C4: for every result of the compare entry point, the breakdown taxes sum
to the annualPAYE field within 0.01, in both regimes. -/
theorem claim_C4 (g : ℚ) (d : AdditionalDeductions) (r : Results) (hg : 0 ≤ g)
    (h : calculateResults g d = some r) :
    |sumBreakdownTax r.legacy.bracketBreakdown - r.legacy.annualPAYE| ≤ 0.01 ∧
    |sumBreakdownTax r.reform.bracketBreakdown - r.reform.annualPAYE| ≤ 0.01 := by
  rw [calculateResults] at h
  rcases hq : parseDeductionsQ d with _ | q
  · rw [hq] at h
    simp at h
  · rw [hq] at h
    simp only [Option.map_some', Option.some.injEq] at h
    subst h
    constructor
    · rw [calculateResultsN_legacy, calculatePAYE_bracketBreakdown,
        calculatePAYE_annualPAYE]
      exact sum_round_close _ LEGACY_BRACKETS legacy_limitsAsc
    · rw [calculateResultsN_reform, calculatePAYE_bracketBreakdown,
        calculatePAYE_annualPAYE]
      exact sum_round_close _ REFORM_BRACKETS reform_limitsAsc

/-- Witness for C4 at monthly gross 500000, no deductions. -/
theorem claim_C4_witness :
    |sumBreakdownTax (calculateResultsN 500000 ⟨0, 0, 0⟩).legacy.bracketBreakdown -
        (calculateResultsN 500000 ⟨0, 0, 0⟩).legacy.annualPAYE| ≤ 0.01 ∧
    |sumBreakdownTax (calculateResultsN 500000 ⟨0, 0, 0⟩).reform.bracketBreakdown -
        (calculateResultsN 500000 ⟨0, 0, 0⟩).reform.annualPAYE| ≤ 0.01 :=
  claim_C4 500000 ⟨"", "", ""⟩ _ (by norm_num) rfl

/-- C5 counterexample: at monthly gross 500000 (legacy, no deductions) the
engine returns netAnnualPay 5104000, while rounding the *rounded*
netMonthlyPay field times 12 gives 5103999.96 — the source computes
netAnnualPay from the un-rounded monthly net pay. -/
theorem claim_C5_counterexample :
    (calculatePAYE 500000 LEGACY_BRACKETS false ⟨0, 0, 0⟩).netAnnualPay = 5104000 ∧
    jsRound2 ((calculatePAYE 500000 LEGACY_BRACKETS false ⟨0, 0, 0⟩).netMonthlyPay * 12) =
      5103999.96 ∧
    (calculatePAYE 500000 LEGACY_BRACKETS false ⟨0, 0, 0⟩).netAnnualPay ≠
      jsRound2 ((calculatePAYE 500000 LEGACY_BRACKETS false ⟨0, 0, 0⟩).netMonthlyPay * 12) := by
  rw [legacy500k_eq]
  have hr : jsRound2 ((425333.33 : ℚ) * 12) = 5103999.96 :=
    jsRound2_eq 510399996 _ _ (by norm_num) (by norm_num) (by norm_num)
  refine ⟨rfl, hr, ?_⟩
  rw [hr]
  show (5104000 : ℚ) ≠ 5103999.96
  norm_num

/-- C5 (amended): netAnnualPay equals `round2(netMonthlyPay * 12)` computed
from the *un-rounded* monthly net pay (gross minus monthly tax minus the
monthly deductions), for every input to the engine. -/
theorem claim_C5_amended (g : ℚ) (bs : List TaxBracket) (iR : Bool)
    (d : Deductions) :
    (calculatePAYE g bs iR d).netAnnualPay =
      jsRound2 ((g - (calculateTaxByBrackets
          (calculateAllowances (g * 12) iR
            ((d.pension + d.nhf + d.insurance) * 12)).taxableIncome bs).1 / 12 -
        d.pension - d.nhf - d.insurance) * 12) := rfl

/-- C6: zero taxable income yields zero tax and an empty breakdown for any
bracket table; every emitted breakdown line has a strictly positive taxable
amount (lines are omitted exactly for zero captured amounts); and the
reform's rate-0 first bracket still emits its line, with tax 0, when it
captures income (taxable income 500000). -/
theorem claim_C6 :
    (∀ bs : List TaxBracket, calculateTaxByBrackets 0 bs = (0, [])) ∧
    (∀ (ti : ℚ) (bs : List TaxBracket) (br : BracketBreakdown),
        br ∈ (calculateTaxByBrackets ti bs).2 → 0 < br.taxableAmount) ∧
    calculateTaxByBrackets 500000 REFORM_BRACKETS =
      (0, [⟨0, some 800000, 0, 500000, 0⟩]) := by
  refine ⟨fun bs => taxLoop_of_le 0 0 bs le_rfl,
    fun ti bs br hm => taxLoop_mem_pos ti bs 0 br hm, ?_⟩
  norm_num [calculateTaxByBrackets, taxLoop, REFORM_BRACKETS, min_def, Prod.ext_iff]

/-- Witness for C6: the zero-rate reform line at taxable income 500000 has a
positive taxable amount. -/
theorem claim_C6_witness :
    (0 : ℚ) < (⟨0, some 800000, 0, 500000, 0⟩ : BracketBreakdown).taxableAmount :=
  claim_C6.2.1 500000 REFORM_BRACKETS ⟨0, some 800000, 0, 500000, 0⟩
    (by rw [claim_C6.2.2]; simp)

/-! ### Concrete evaluation at monthly gross 10000000 (for C7) -/

theorem allow_legacy_120M :
    calculateAllowances 120000000 false 0 = ⟨25200000, 94800000⟩ := by
  norm_num [calculateAllowances, max_def]

theorem allow_reform_120M :
    calculateAllowances 120000000 true 0 = ⟨1200000, 118800000⟩ := by
  norm_num [calculateAllowances, max_def]

theorem tax_legacy_948 :
    (calculateTaxByBrackets 94800000 LEGACY_BRACKETS).1 = 22544000 := by
  norm_num [calculateTaxByBrackets, taxLoop, LEGACY_BRACKETS, min_def]

theorem tax_reform_1188 :
    (calculateTaxByBrackets 118800000 REFORM_BRACKETS).1 = 27630000 := by
  norm_num [calculateTaxByBrackets, taxLoop, REFORM_BRACKETS, min_def]

/-- C7 counterexample: at monthly gross 10000000 (empty deductions) the
reform tax exceeds the legacy tax, so savings.annual is negative, yet the
reported savings.percentage is nonzero (negative) — the source's guard is
`legacy.annualPAYE > 0`, not `savings.annual > 0`. -/
theorem claim_C7_counterexample :
    calculateResults 10000000 ⟨"", "", ""⟩ =
      some (calculateResultsN 10000000 ⟨0, 0, 0⟩) ∧
    (calculateResultsN 10000000 ⟨0, 0, 0⟩).savings.annual < 0 ∧
    (calculateResultsN 10000000 ⟨0, 0, 0⟩).savings.percentage ≠ 0 := by
  have e1 : ((10000000 : ℚ) * 12) = 120000000 := by norm_num
  have e2 : (((⟨0, 0, 0⟩ : Deductions).pension + (⟨0, 0, 0⟩ : Deductions).nhf +
      (⟨0, 0, 0⟩ : Deductions).insurance) * 12) = 0 := by norm_num
  have hL : (calculatePAYE 10000000 LEGACY_BRACKETS false ⟨0, 0, 0⟩).annualPAYE =
      22544000 := by
    rw [calculatePAYE_annualPAYE, e1, e2, allow_legacy_120M]
    rw [show (Allowances.mk 25200000 94800000).taxableIncome = 94800000 from rfl,
      tax_legacy_948]
    exact jsRound2_eq 2254400000 _ _ (by norm_num) (by norm_num) (by norm_num)
  have hR : (calculatePAYE 10000000 REFORM_BRACKETS true ⟨0, 0, 0⟩).annualPAYE =
      27630000 := by
    rw [calculatePAYE_annualPAYE, e1, e2, allow_reform_120M]
    rw [show (Allowances.mk 1200000 118800000).taxableIncome = 118800000 from rfl,
      tax_reform_1188]
    exact jsRound2_eq 2763000000 _ _ (by norm_num) (by norm_num) (by norm_num)
  refine ⟨rfl, ?_, ?_⟩
  · rw [calculateResultsN_savings_annual, hL, hR]
    norm_num
  · rw [calculateResultsN_savings_percentage, hL, hR]
    rw [if_pos (by norm_num : (0 : ℚ) < 22544000)]
    norm_num

/-- C7 (amended): the reported savings.percentage equals
`savings.annual / legacy.annualPAYE * 100` whenever `legacy.annualPAYE > 0`,
and `0` otherwise — the guard tests the legacy tax, not the savings. -/
theorem claim_C7_amended (m : ℚ) (d : Deductions) :
    (calculateResultsN m d).savings.percentage =
      if 0 < (calculateResultsN m d).legacy.annualPAYE then
        (calculateResultsN m d).savings.annual /
          (calculateResultsN m d).legacy.annualPAYE * 100
      else 0 := rfl
